import Mathlib

/-!
Shallow embedding of the hybrid recommendation engine of the `kiki` repository
(`app/services/recommendation_service.py`, `app/core/recommendation_background_tasks.py`,
`app/schemas/recommendation.py`, `app/models/recommendation.py`).

Modelling conventions:
* Python floats are modelled as exact rationals (`ℚ`); the spec mandates no
  bit-exact arithmetic.
* Timestamps are integers (seconds); `datetime.utcnow()` becomes an explicit
  `now : ℤ` parameter threaded through each operation.
* The persistence collaborator (SQLAlchemy session) is modelled as explicit
  lists of rows inside a `DB` structure; queries become list filters, commits
  become pure state updates, and a fallible commit is a `Bool` parameter.
* The AI embedding oracle (`cosine_similarity` over embeddings) and `np.sqrt`
  are opaque oracles, passed as function parameters, exactly as §5/§6 of the
  spec treat them.
-/

namespace Kiki

/-- A row of `user_interactions` (`app/models/recommendation.py`, `UserInteraction`). -/
structure UserInteraction where
  user_id : Nat
  post_id : Nat
  interaction_type : String
  interaction_score : ℚ
  time_spent_seconds : Nat
  scroll_depth : ℚ
  created_at : ℤ
  deriving DecidableEq, Repr

/-- A row of `user_preferences` (`app/models/recommendation.py`, `UserPreference`). -/
structure UserPreference where
  user_id : Nat
  preference_type : String
  preference_value : String
  strength : ℚ
  confidence : ℚ
  interaction_count : Nat
  positive_interactions : Nat
  negative_interactions : Nat
  last_interaction : ℤ
  is_active : Bool
  deriving DecidableEq, Repr

/-- A row of `similarity_scores` (`app/models/recommendation.py`, `SimilarityScore`). -/
structure SimilarityScore where
  source_post_id : Nat
  target_post_id : Nat
  similarity_score : ℚ
  algorithm : String
  confidence : ℚ
  is_active : Bool
  deriving DecidableEq, Repr

/-- A row of `trending_content` (`app/models/recommendation.py`, `TrendingContent`). -/
structure TrendingContent where
  post_id : Nat
  trend_score : ℚ
  velocity : ℚ
  views_count : Nat
  likes_count : Nat
  shares_count : Nat
  comments_count : Nat
  is_trending : Bool
  last_updated : ℤ
  deriving DecidableEq, Repr

/-- A row of `recommendation_feedback` (`app/models/recommendation.py`,
`RecommendationFeedback`). -/
structure RecommendationFeedback where
  user_id : Nat
  post_id : Nat
  recommendation_type : String
  feedback_type : String
  feedback_score : ℚ
  deriving DecidableEq, Repr

/-- The slice of a `Post` row that the recommendation engine reads
(`app/models/post.py`): id, author, category names, creation time. -/
structure Post where
  id : Nat
  author_id : Nat
  author_username : String
  categories : List String
  created_at : ℤ
  deriving DecidableEq, Repr

/-- The persisted state the engine reads and writes, one list per table. -/
structure DB where
  posts : List Post
  interactions : List UserInteraction
  preferences : List UserPreference
  similarities : List SimilarityScore
  trending : List TrendingContent
  feedback : List RecommendationFeedback
  deriving DecidableEq, Repr

/-- `InteractionType` (`app/schemas/recommendation.py`): the eight interaction
types accepted at the public interface. -/
inductive InteractionType where
  | view | like | share | comment | save | click | dismiss | report
  deriving DecidableEq, Repr

/-- The string value of each `InteractionType` member. -/
def InteractionType.value : InteractionType → String
  | .view => "view"
  | .like => "like"
  | .share => "share"
  | .comment => "comment"
  | .save => "save"
  | .click => "click"
  | .dismiss => "dismiss"
  | .report => "report"

/-- The positive interaction set of `_update_single_preference`
(`recommendation_service.py` line 149): `["like", "share", "save", "comment"]`. -/
def positiveSet : List String := ["like", "share", "save", "comment"]

/-- The negative interaction set of `_update_single_preference`
(`recommendation_service.py` line 151): `["dislike", "report"]`. -/
def negativeSet : List String := ["dislike", "report"]

/-- `_update_single_preference` (`recommendation_service.py` lines 144-158),
branch where an active row already exists: bump the counters and recompute
`strength = min(strength + score * 0.1, 1.0)` (unconditionally, for positive
and negative interactions alike) and `confidence = min(count / 10, 1.0)`. -/
def update_single_preference_existing (p : UserPreference) (interaction : String)
    (score : ℚ) (now : ℤ) : UserPreference :=
  { p with
    interaction_count := p.interaction_count + 1
    last_interaction := now
    positive_interactions :=
      if interaction ∈ positiveSet then p.positive_interactions + 1
      else p.positive_interactions
    negative_interactions :=
      if interaction ∈ positiveSet then p.negative_interactions
      else if interaction ∈ negativeSet then p.negative_interactions + 1
      else p.negative_interactions
    strength := min (p.strength + score * (1/10)) 1
    confidence := min (((p.interaction_count + 1 : Nat) : ℚ) / 10) 1 }

/-- `_update_single_preference` (`recommendation_service.py` lines 160-172),
branch where no active row exists: a fresh row with
`strength = score * 0.5` (for positive and negative interactions alike),
`confidence = 0.1`, `interaction_count = 1`. -/
def update_single_preference_new (user_id : Nat) (pref_type pref_value : String)
    (interaction : String) (score : ℚ) (now : ℤ) : UserPreference :=
  { user_id := user_id
    preference_type := pref_type
    preference_value := pref_value
    strength := score * (1/2)
    confidence := 1/10
    interaction_count := 1
    positive_interactions := if interaction ∈ positiveSet then 1 else 0
    negative_interactions := if interaction ∈ negativeSet then 1 else 0
    last_interaction := now
    is_active := true }

/-- `_update_preference_for_interaction`
(`recommendation_background_tasks.py` lines 362-371), branch where an active
row exists: on `positive`, `strength = min(strength + score * 0.1, 1.0)`; else
`strength = max(strength - score * 0.1, 0.0)`; the matching counter and
`interaction_count` are bumped; `confidence` is left untouched. -/
def update_preference_for_interaction_existing (p : UserPreference)
    (score : ℚ) (positive : Bool) (now : ℤ) : UserPreference :=
  { p with
    strength :=
      if positive then min (p.strength + score * (1/10)) 1
      else max (p.strength - score * (1/10)) 0
    positive_interactions :=
      if positive then p.positive_interactions + 1 else p.positive_interactions
    negative_interactions :=
      if positive then p.negative_interactions else p.negative_interactions + 1
    interaction_count := p.interaction_count + 1
    last_interaction := now }

/-- `_update_preference_for_interaction`
(`recommendation_background_tasks.py` lines 373-385), branch where no active
row exists: `strength = score * 0.5 if positive else 0.1`, `confidence = 0.1`,
`interaction_count = 1`. -/
def update_preference_for_interaction_new (user_id : Nat)
    (pref_type pref_value : String) (score : ℚ) (positive : Bool) (now : ℤ) :
    UserPreference :=
  { user_id := user_id
    preference_type := pref_type
    preference_value := pref_value
    strength := if positive then score * (1/2) else 1/10
    confidence := 1/10
    interaction_count := 1
    positive_interactions := if positive then 1 else 0
    negative_interactions := if positive then 0 else 1
    last_interaction := now
    is_active := true }

/-- One update touching a single `(user, type, value)` preference row: either
the synchronous per-interaction path (`_update_single_preference`) or the
background bulk path (`_update_preference_for_interaction`). -/
inductive PrefUpdate where
  | sync (interaction : String) (score : ℚ) (now : ℤ)
  | background (positive : Bool) (score : ℚ) (now : ℤ)
  deriving DecidableEq, Repr

/-- The interaction score carried by a preference update. -/
def PrefUpdate.score : PrefUpdate → ℚ
  | .sync _ s _ => s
  | .background _ s _ => s

/-- Apply one preference update to the state of a single keyed row: `none`
means no active row exists for the key (so the update creates one). -/
def applyPrefUpdate (uid : Nat) (ptype pvalue : String) :
    Option UserPreference → PrefUpdate → Option UserPreference
  | some p, .sync interaction score now =>
      some (update_single_preference_existing p interaction score now)
  | none, .sync interaction score now =>
      some (update_single_preference_new uid ptype pvalue interaction score now)
  | some p, .background positive score now =>
      some (update_preference_for_interaction_existing p score positive now)
  | none, .background positive score now =>
      some (update_preference_for_interaction_new uid ptype pvalue score positive now)

/-- Run a sequence of preference updates against one keyed row, starting from
a given row state. -/
def runPrefUpdates (uid : Nat) (ptype pvalue : String)
    (init : Option UserPreference) (us : List PrefUpdate) : Option UserPreference :=
  us.foldl (applyPrefUpdate uid ptype pvalue) init

/-! ### Stable descending sort

Python's `list.sort(key=..., reverse=True)` and SQL `ORDER BY ... DESC` are
modelled by a stable insertion sort on a key: an element is inserted after
every element with a strictly greater key and before the first element whose
key is not greater, so equal keys keep their original relative order. -/

/-- Insert `a` into `l` keeping `l`'s descending key order, after all elements
with a strictly greater key (stable). -/
def insertDescBy {α β : Type} [LinearOrder β] (key : α → β) (a : α) :
    List α → List α
  | [] => [a]
  | b :: bs => if key a < key b then b :: insertDescBy key a bs else a :: b :: bs

/-- Stable sort by `key`, descending (`sort(key=..., reverse=True)` /
`ORDER BY key DESC`). -/
def sortDescBy {α β : Type} [LinearOrder β] (key : α → β) (l : List α) : List α :=
  l.foldr (insertDescBy key) []

/-! ### Trending Scorer -/

/-- The per-call trending metrics `_update_post_trending_score`
(`recommendation_service.py` lines 191-203) derives from the 24h interaction
window: per-type counts, `velocity = len(last hour) / max(views, 1)` and
`trend_score = (likes*2 + shares*3 + comments*2) / max(views, 1)`. -/
structure TrendingMetrics where
  views : Nat
  likes : Nat
  shares : Nat
  comments : Nat
  velocity : ℚ
  trend_score : ℚ
  deriving DecidableEq, Repr

/-- Compute the trending metrics of `_update_post_trending_score` from the
interactions of the last 24 hours for a post. -/
def trendingMetrics (now : ℤ) (recent : List UserInteraction) : TrendingMetrics :=
  let views := (recent.filter (fun i => i.interaction_type = "view")).length
  let likes := (recent.filter (fun i => i.interaction_type = "like")).length
  let shares := (recent.filter (fun i => i.interaction_type = "share")).length
  let comments := (recent.filter (fun i => i.interaction_type = "comment")).length
  let recent_hour := recent.filter (fun i => i.created_at ≥ now - 3600)
  { views := views, likes := likes, shares := shares, comments := comments
    velocity := (recent_hour.length : ℚ) / (max views 1 : Nat)
    trend_score := ((likes : ℚ) * 2 + (shares : ℚ) * 3 + (comments : ℚ) * 2) / (max views 1 : Nat) }

/-- Overwrite the recomputed fields of an existing `TrendingContent` row
(`recommendation_service.py` lines 210-217); `is_trending` is untouched. -/
def applyTrendingMetrics (now : ℤ) (m : TrendingMetrics) (t : TrendingContent) :
    TrendingContent :=
  { t with
    trend_score := m.trend_score
    velocity := m.velocity
    views_count := m.views
    likes_count := m.likes
    shares_count := m.shares
    comments_count := m.comments
    last_updated := now }

/-- The fresh `TrendingContent` row created when none exists for the post
(`recommendation_service.py` lines 218-228); `is_trending` takes its column
default `True`. -/
def newTrendingRecord (now : ℤ) (post_id : Nat) (m : TrendingMetrics) :
    TrendingContent :=
  { post_id := post_id
    trend_score := m.trend_score
    velocity := m.velocity
    views_count := m.views
    likes_count := m.likes
    shares_count := m.shares
    comments_count := m.comments
    is_trending := true
    last_updated := now }

/-- Update the first row for `post_id` in place, or append a fresh row when
none exists (`.first()` then update-or-`add`). -/
def upsertTrending (now : ℤ) (post_id : Nat) (m : TrendingMetrics) :
    List TrendingContent → List TrendingContent
  | [] => [newTrendingRecord now post_id m]
  | t :: ts =>
      if t.post_id = post_id then applyTrendingMetrics now m t :: ts
      else t :: upsertTrending now post_id m ts

/-- The post's interactions of the last 24 hours
(`recommendation_service.py` lines 181-186). -/
def recentInteractions (now : ℤ) (post_id : Nat) (db : DB) :
    List UserInteraction :=
  db.interactions.filter
    (fun i => i.post_id = post_id ∧ i.created_at ≥ now - 86400)

/-- `_update_post_trending_score` (`recommendation_service.py` lines 177-231):
gather the post's interactions of the last 24 hours; if there are none, return
with no state change; otherwise recompute the metrics and update-or-create the
post's `TrendingContent` row. -/
def update_post_trending_score (now : ℤ) (post_id : Nat) (db : DB) : DB :=
  if (recentInteractions now post_id db).isEmpty then db
  else
    { db with trending := upsertTrending now post_id (trendingMetrics now (recentInteractions now post_id db)) db.trending }

/-! ### Similarity Index -/

/-- One entry of the list `get_similar_content` returns
(`recommendation_service.py` lines 626-631 and 649-654). -/
structure SimilarContentItem where
  post_id : Nat
  similarity_score : ℚ
  algorithm : String
  confidence : ℚ
  deriving DecidableEq, Repr

/-- `AIService.find_similar_content` (`app/services/ai_service.py` lines
187-243) with the embedding model abstracted into a cosine-similarity oracle
`cos`: score every other post against the target, order by similarity
descending, take the top `limit`, and keep those above the `0.1` threshold.
Returns `[]` when the target post is missing or it is the only post. -/
def find_similar_content (cos : Nat → Nat → ℚ) (post_id : Nat) (limit : Nat)
    (db : DB) : List (Nat × ℚ) :=
  if (db.posts.filter (fun p => p.id = post_id)).isEmpty then []
  else
    let others := db.posts.filter (fun p => p.id ≠ post_id)
    if others.isEmpty then []
    else
      let sims := others.map (fun p => (p.id, cos post_id p.id))
      ((sortDescBy Prod.snd sims).take limit).filter (fun s => s.2 > 1/10)

/-- The active persisted similarity rows `get_similar_content` reads for a
source post (`recommendation_service.py` lines 616-622): score above `0.1`,
active, ordered by score descending, truncated to `limit`. -/
def cachedSimilarities (post_id : Nat) (limit : Nat) (db : DB) :
    List SimilarityScore :=
  (sortDescBy SimilarityScore.similarity_score
    (db.similarities.filter
      (fun s => s.source_post_id = post_id ∧ s.similarity_score > 1/10 ∧ s.is_active))).take limit

/-- The `SimilarityScore` row persisted for one freshly computed similarity
(`recommendation_service.py` lines 637-645). -/
def newSimilarityRow (post_id : Nat) (sim : Nat × ℚ) : SimilarityScore :=
  { source_post_id := post_id
    target_post_id := sim.1
    similarity_score := sim.2
    algorithm := "ai_embeddings"
    confidence := 8/10
    is_active := true }

/-- `get_similar_content` (`recommendation_service.py` lines 612-658): return
cached rows when present; otherwise compute via the oracle, persist the
results (the commit may fail: `commitOk = false` makes the commit raise, the
surrounding handler catches the exception, logs, and the call returns `[]`
with no state change), and return the computed list. -/
def get_similar_content (cos : Nat → Nat → ℚ) (commitOk : Bool) (post_id : Nat)
    (limit : Nat) (db : DB) : List SimilarContentItem × DB :=
  if ¬ (cachedSimilarities post_id limit db).isEmpty then
    ((cachedSimilarities post_id limit db).map (fun s =>
      { post_id := s.target_post_id
        similarity_score := s.similarity_score
        algorithm := s.algorithm
        confidence := s.confidence }), db)
  else if commitOk then
    ((find_similar_content cos post_id limit db).map (fun s =>
      { post_id := s.1
        similarity_score := s.2
        algorithm := "ai_embeddings"
        confidence := 8/10 }),
     { db with similarities := db.similarities ++ (find_similar_content cos post_id limit db).map (newSimilarityRow post_id) })
  else ([], db)

/-! ### Feedback submission -/

/-- A parsed `/recommendations/feedback` request body before validation
(`app/schemas/recommendation.py`, `FeedbackRequest`). -/
structure FeedbackRequestIn where
  user_id : Nat
  post_id : Nat
  feedback_type : String
  feedback_score : ℚ
  recommendation_type : String
  deriving DecidableEq, Repr

/-- The pydantic `Field` constraint on `FeedbackRequest.feedback_score`
(`app/schemas/recommendation.py` line 99): `ge=-1.0, le=1.0`. -/
def feedbackScoreValid (r : FeedbackRequestIn) : Bool :=
  -1 ≤ r.feedback_score ∧ r.feedback_score ≤ 1

/-- `update_recommendation_feedback` (`recommendation_service.py` lines
660-680): append one `RecommendationFeedback` row and report success. -/
def update_recommendation_feedback (r : FeedbackRequestIn) (db : DB) : Bool × DB :=
  (true,
   { db with feedback := db.feedback ++
      [{ user_id := r.user_id
         post_id := r.post_id
         recommendation_type := r.recommendation_type
         feedback_type := r.feedback_type
         feedback_score := r.feedback_score }] })

/-- The `/recommendations/feedback` endpoint
(`app/api/recommendations.py` lines 198-226) composed with request
validation: FastAPI runs the pydantic validator before the handler, so an
out-of-range `feedback_score` is rejected (`none`) and the service is never
invoked; otherwise the handler calls `update_recommendation_feedback`. -/
def submit_feedback_endpoint (r : FeedbackRequestIn) (db : DB) :
    Option (Bool × DB) :=
  if feedbackScoreValid r then some (update_recommendation_feedback r db)
  else none

/-! ### Recommendation Engine -/

/-- One recommendation entry as built by the strategy stages and returned by
`get_personalized_recommendations` (the dicts of `recommendation_service.py`). -/
structure RecommendationItem where
  post_id : Nat
  score : ℚ
  reason : String
  algorithm : String
  confidence : ℚ
  deriving DecidableEq, Repr

/-- `post_service.get_by_id` against the modelled post table. -/
def findPost (post_id : Nat) (db : DB) : Option Post :=
  db.posts.find? (fun p => p.id = post_id)

/-- First-occurrence deduplication, the key order of a Python dict built by
insertion (`defaultdict` grouping keeps the order keys first appear). -/
def dedupKeepFirst {α : Type} [DecidableEq α] : List α → List α
  | [] => []
  | a :: as => a :: (dedupKeepFirst as).filter (fun b => b ≠ a)

/-- `sep.join(l)`. -/
def joinSep (sep : String) : List String → String
  | [] => ""
  | [s] => s
  | s :: rest => s ++ sep ++ joinSep sep rest

/-- Overwrite-or-append on an association list: Python `d[k] = v`. -/
def assocSet {κ ν : Type} [DecidableEq κ] (k : κ) (v : ν) :
    List (κ × ν) → List (κ × ν)
  | [] => [(k, v)]
  | (k', v') :: rest =>
      if k' = k then (k', v) :: rest else (k', v') :: assocSet k v rest

/-- Lookup on an association list: Python `d.get(k)`. -/
def assocGet {κ ν : Type} [DecidableEq κ] (k : κ) : List (κ × ν) → Option ν
  | [] => none
  | (k', v) :: rest => if k' = k then some v else assocGet k rest

/-- The nested dict `user_post_scores[user][post] = score` built in
`_find_similar_users` (`recommendation_service.py` lines 398-400). -/
def user_post_scores (ints : List UserInteraction) :
    List (Nat × List (Nat × ℚ)) :=
  ints.foldl (fun acc i =>
    let inner := (assocGet i.user_id acc).getD []
    assocSet i.user_id (assocSet i.post_id i.interaction_score inner) acc) []

/-- `_find_similar_users` (`recommendation_service.py` lines 382-426) with
`np.sqrt` abstracted into the oracle `sqrtQ`: for each other user who
positively interacted with posts the target user touched, require at least two
distinct common posts, take `dot / (sqrt |user_posts| * sqrt |other_posts|)`
as the similarity, sort descending and keep the top 20. -/
def find_similar_users (sqrtQ : Nat → ℚ) (user_id : Nat)
    (user_interactions : List UserInteraction) (db : DB) : List (Nat × ℚ) :=
  let user_posts := user_interactions.map (fun i => i.post_id)
  let similar_interactions := db.interactions.filter (fun i =>
    i.post_id ∈ user_posts ∧ i.user_id ≠ user_id ∧
      i.interaction_type ∈ ["like", "share", "save"])
  let scores := user_post_scores similar_interactions
  let sims := scores.filterMap (fun entry =>
    let other_posts := entry.2
    let common := dedupKeepFirst (user_posts.filter
      (fun p => (assocGet p other_posts).isSome))
    if common.length < 2 then none
    else
      let dot := (common.map (fun p => 1 * ((assocGet p other_posts).getD 0))).sum
      let magU := sqrtQ user_posts.length
      let magO := sqrtQ other_posts.length
      if 0 < magU ∧ 0 < magO then some (entry.1, dot / (magU * magO)) else none)
  (sortDescBy Prod.snd sims).take 20

/-- `_get_cold_start_recommendations` (`recommendation_service.py` lines
509-533): the posts of the last week, newest first, truncated to the limit,
each with fixed score 0.5 and algorithm tag `"cold_start"`. -/
def get_cold_start_recommendations (now : ℤ) (lim : Nat) (db : DB) :
    List RecommendationItem :=
  let week_ago := now - 7 * 86400
  let popular := (sortDescBy Post.created_at
    (db.posts.filter (fun p => p.created_at ≥ week_ago))).take lim
  popular.map (fun p =>
    { post_id := p.id
      score := 1/2
      reason := "Popular content to get you started"
      algorithm := "cold_start"
      confidence := 1/2 })

/-- `_get_collaborative_recommendations` (`recommendation_service.py` lines
266-306): with no interaction history fall back to the cold-start list at this
stage's limit; otherwise pull, per top-10 similar user, that user's positive
interactions with unseen posts (by score descending, at most `lim / 2`) and
weight them by `interaction_score * similarity * 0.4`. -/
def get_collaborative_recommendations (sqrtQ : Nat → ℚ) (now : ℤ)
    (user_id lim : Nat) (db : DB) : List RecommendationItem :=
  let user_interactions := db.interactions.filter (fun i => i.user_id = user_id)
  if user_interactions.isEmpty then get_cold_start_recommendations now lim db
  else
    let similar_users := (find_similar_users sqrtQ user_id user_interactions db).take 10
    similar_users.flatMap (fun su =>
      let seen := user_interactions.map (fun i => i.post_id)
      let similar_user_posts := (sortDescBy UserInteraction.interaction_score
        (db.interactions.filter (fun i =>
          i.user_id = su.1 ∧ i.interaction_type ∈ ["like", "share", "save"] ∧
            i.post_id ∉ seen))).take (lim / 2)
      similar_user_posts.filterMap (fun i =>
        (findPost i.post_id db).map (fun p =>
          { post_id := p.id
            score := i.interaction_score * su.2 * (4/10)
            reason := "Because users like you enjoyed this"
            algorithm := "collaborative"
            confidence := su.2 })))

/-- `_get_candidate_posts_for_user` (`recommendation_service.py` lines
428-461). The source references the name `Category` (line 441), which is not
imported in the module, so whenever a category preference with strength above
0.3 exists the query raises `NameError`; the local handler catches it and
returns the empty list. Otherwise: exclude the user's own posts, filter by
preferred author usernames (case-insensitive) when any, keep the last 30 days,
newest first, at most 100. -/
def get_candidate_posts_for_user (now : ℤ) (user_id : Nat)
    (user_prefs : List UserPreference) (db : DB) : List Post :=
  let category_names := (user_prefs.filter (fun p =>
    p.preference_type = "category" ∧ p.strength > 3/10)).map (fun p => p.preference_value)
  let author_usernames := (user_prefs.filter (fun p =>
    p.preference_type = "author" ∧ p.strength > 3/10)).map (fun p => p.preference_value)
  if ¬ category_names.isEmpty then []
  else
    let base := db.posts.filter (fun p => p.author_id ≠ user_id)
    let byAuthor := if ¬ author_usernames.isEmpty then
        base.filter (fun p =>
          p.author_username.toLower ∈ author_usernames.map String.toLower)
      else base
    let recent := byAuthor.filter (fun p => p.created_at ≥ now - 30 * 86400)
    (sortDescBy Post.created_at recent).take 100

/-- `_calculate_content_similarity` (`recommendation_service.py` lines
463-507): strength-normalised preference weights, category matches contribute
`weight * 0.4` each, an author match `weight * 0.3`, and — when the user has
authored posts — the mean oracle similarity of the candidate contributes
`* 0.3`; the total is capped at 1. A duplicate `(type, value)` key overwrites
the earlier dict entry, hence the last matching row wins. -/
def calculate_content_similarity (cos : Nat → Nat → ℚ) (user_id : Nat)
    (post : Post) (db : DB) : ℚ :=
  let user_prefs := db.preferences.filter (fun p => p.user_id = user_id ∧ p.is_active)
  let total_strength := (user_prefs.map (fun p => p.strength)).sum
  if total_strength = 0 then 0
  else
    let weight := fun (t v : String) =>
      ((user_prefs.filter (fun p =>
        p.preference_type = t ∧ p.preference_value = v)).getLast?).map
          (fun p => p.strength / total_strength)
    let catScore := ((post.categories.filterMap (fun c => weight "category" c)).map
      (fun w => w * (4/10))).sum
    let authorScore := match weight "author" post.author_username with
      | some w => w * (3/10)
      | none => 0
    let user_posts := (db.posts.filter (fun p => p.author_id = user_id)).take 5
    let embScore :=
      if user_posts.isEmpty then 0
      else
        let sims := find_similar_content cos post.id 5 db
        if sims.isEmpty then 0
        else ((sims.map Prod.snd).sum / (sims.length : ℚ)) * (3/10)
    min (catScore + authorScore + embScore) 1

/-- `_get_content_based_recommendations` (`recommendation_service.py` lines
308-342): empty without active preferences; otherwise score up to `lim * 2`
candidate posts and keep those above 0.1, weighted by `* 0.3`. -/
def get_content_based_recommendations (cos : Nat → Nat → ℚ) (now : ℤ)
    (user_id lim : Nat) (db : DB) : List RecommendationItem :=
  let user_prefs := db.preferences.filter (fun p => p.user_id = user_id ∧ p.is_active)
  if user_prefs.isEmpty then []
  else
    let candidates := get_candidate_posts_for_user now user_id user_prefs db
    (candidates.take (lim * 2)).filterMap (fun post =>
      let s := calculate_content_similarity cos user_id post db
      if s > 1/10 then
        some { post_id := post.id
               score := s * (3/10)
               reason := "Matches your interests"
               algorithm := "content_based"
               confidence := s }
      else none)

/-- `_get_trending_recommendations` (`recommendation_service.py` lines
344-380): trending rows with `is_trending` and `trend_score > 0.1`, best
first, at most `lim * 2`, resolved to posts, keeping only posts the user has
never interacted with, weighted by `trend_score * 0.2`. -/
def get_trending_recommendations (user_id lim : Nat) (db : DB) :
    List RecommendationItem :=
  let trending_posts := (sortDescBy TrendingContent.trend_score
    (db.trending.filter (fun t => t.is_trending ∧ t.trend_score > 1/10))).take (lim * 2)
  trending_posts.filterMap (fun t =>
    match findPost t.post_id db with
    | none => none
    | some p =>
        if (db.interactions.filter (fun i =>
            i.user_id = user_id ∧ i.post_id = p.id)).isEmpty then
          some { post_id := p.id
                 score := t.trend_score * (2/10)
                 reason := "Trending now"
                 algorithm := "trending"
                 confidence := min t.trend_score 1 }
        else none)

/-- `_merge_and_deduplicate_recommendations` (`recommendation_service.py`
lines 535-565): group by `post_id` (keys in first-occurrence order), sum
scores, join the distinct algorithm tags and reasons (CPython set iteration
order is unspecified; modelled as first-occurrence order), average
confidences, and sort by merged score descending. -/
def merge_and_deduplicate_recommendations (recs : List RecommendationItem) :
    List RecommendationItem :=
  let keys := dedupKeepFirst (recs.map (fun r => r.post_id))
  let merged := keys.map (fun k =>
    let group := recs.filter (fun r => r.post_id = k)
    { post_id := k
      score := (group.map (fun r => r.score)).sum
      algorithm := joinSep "+" (dedupKeepFirst (group.map (fun r => r.algorithm)))
      reason := joinSep "; " (dedupKeepFirst (group.map (fun r => r.reason)))
      confidence := (group.map (fun r => r.confidence)).sum / (group.length : ℚ) })
  sortDescBy RecommendationItem.score merged

/-- The greedy selection loop of `_apply_diversity` (`recommendation_service.py`
lines 580-599): walk the sorted candidates, skip those whose post cannot be
resolved, select a candidate only while its author has fewer than 3 selected
items, and stop as soon as the limit is reached. -/
def diversityGreedy (authorOf : Nat → Option Nat) (lim : Nat) :
    List RecommendationItem → List RecommendationItem → List RecommendationItem
  | [], acc => acc
  | r :: rs, acc =>
      match authorOf r.post_id with
      | none => diversityGreedy authorOf lim rs acc
      | some a =>
          let cnt := (acc.filter (fun s => authorOf s.post_id = some a)).length
          if cnt < 3 then
            let acc' := acc ++ [r]
            if lim ≤ acc'.length then acc' else diversityGreedy authorOf lim rs acc'
          else diversityGreedy authorOf lim rs acc

/-- The list selected by the greedy pass, starting from the score-sorted
candidates and an empty selection. -/
def diversitySelected (authorOf : Nat → Option Nat) (lim : Nat)
    (recs : List RecommendationItem) : List RecommendationItem :=
  diversityGreedy authorOf lim (sortDescBy RecommendationItem.score recs) []

/-- `_apply_diversity` (`recommendation_service.py` lines 567-610): lists no
longer than the limit pass through unchanged; otherwise run the greedy
author-capped pass over the score-sorted candidates and, when it selected
fewer than `lim`, backfill with the highest-scoring unselected candidates,
finally truncating to `lim`. -/
def apply_diversity (authorOf : Nat → Option Nat)
    (recs : List RecommendationItem) (lim : Nat) : List RecommendationItem :=
  if recs.length ≤ lim then recs
  else if (diversitySelected authorOf lim recs).length < lim then
    (diversitySelected authorOf lim recs ++
      ((sortDescBy RecommendationItem.score recs).filter
        (fun r => r ∉ diversitySelected authorOf lim recs)).take
          (lim - (diversitySelected authorOf lim recs).length)).take lim
  else (diversitySelected authorOf lim recs).take lim

/-- Author lookup used by the diversity pass (`post.author_id` via
`post_service.get_by_id`). -/
def authorOfPost (db : DB) (post_id : Nat) : Option Nat :=
  (findPost post_id db).map (fun p => p.author_id)

/-- The default `include_types` of `get_personalized_recommendations`
(`recommendation_service.py` line 237). -/
def defaultIncludeTypes : List String := ["personalized", "similar", "trending"]

/-- The concatenated stage outputs of `get_personalized_recommendations`
(`recommendation_service.py` lines 240-252): each enabled stage runs with
`limit // 2`. -/
def recommendationCandidates (sqrtQ : Nat → ℚ) (cos : Nat → Nat → ℚ) (now : ℤ)
    (user_id lim : Nat) (include_types : List String) (db : DB) :
    List RecommendationItem :=
  (if "personalized" ∈ include_types then
    get_collaborative_recommendations sqrtQ now user_id (lim / 2) db else []) ++
  (if "similar" ∈ include_types then
    get_content_based_recommendations cos now user_id (lim / 2) db else []) ++
  (if "trending" ∈ include_types then
    get_trending_recommendations user_id (lim / 2) db else [])

/-- The merged candidate list entering the diversity pass
(`recommendation_service.py` line 255). -/
def mergedCandidates (sqrtQ : Nat → ℚ) (cos : Nat → Nat → ℚ) (now : ℤ)
    (user_id lim : Nat) (include_types : List String) (db : DB) :
    List RecommendationItem :=
  merge_and_deduplicate_recommendations
    (recommendationCandidates sqrtQ cos now user_id lim include_types db)

/-- `get_personalized_recommendations` (`recommendation_service.py` lines
233-264): run the enabled stages, merge and deduplicate, apply the diversity
pass, and truncate to `limit`. -/
def get_personalized_recommendations (sqrtQ : Nat → ℚ) (cos : Nat → Nat → ℚ)
    (now : ℤ) (user_id lim : Nat) (include_types : List String) (db : DB) :
    List RecommendationItem :=
  (apply_diversity (authorOfPost db)
    (mergedCandidates sqrtQ cos now user_id lim include_types db) lim).take lim

/-! ### Concrete fixtures used by witnesses and counterexamples -/

/-- Five posts by five distinct authors, all created within the last week
relative to `now = 1000000` (post 1 newest, post 5 oldest). -/
def fixturePosts : List Post :=
  (List.range 5).map (fun i =>
    { id := i + 1
      author_id := 11 + i
      author_username := toString (i + 1)
      categories := []
      created_at := 1000000 - ((i : ℤ) + 1) * 3600 })

/-- A trending row for post 5 with `trend_score = 0.6` above the 0.1 cut. -/
def fixtureTrendingRow : TrendingContent :=
  { post_id := 5
    trend_score := 3/5
    velocity := 0
    views_count := 0
    likes_count := 0
    shares_count := 0
    comments_count := 0
    is_trending := true
    last_updated := 0 }

/-- C1's failing input: user 1 has zero logged interactions, the catalog has
five recent posts, and post 5 is trending. -/
def c1db : DB :=
  { posts := fixturePosts
    interactions := []
    preferences := []
    similarities := []
    trending := [fixtureTrendingRow]
    feedback := [] }

/-- An existing active preference row with strength 0.5, used to exercise the
preference-update formulas at a concrete input. -/
def c2pref : UserPreference :=
  { user_id := 1
    preference_type := "category"
    preference_value := "tech"
    strength := 1/2
    confidence := 1/10
    interaction_count := 1
    positive_interactions := 0
    negative_interactions := 0
    last_interaction := 0
    is_active := true }

/-- A concrete update sequence: one synchronous "like" (score 1) followed by
one negative background update (score 0.5). -/
def c4updates : List PrefUpdate :=
  [.sync "like" 1 0, .background false (1/2) 0]

/-- The row produced by running `c4updates` from no existing row. -/
def c4result : UserPreference :=
  { user_id := 1
    preference_type := "category"
    preference_value := "tech"
    strength := 9/20
    confidence := 1/10
    interaction_count := 2
    positive_interactions := 1
    negative_interactions := 1
    last_interaction := 0
    is_active := true }

/-- A catalog of three posts with no persisted similarities: the first
`get_similar_content` call for post 1 is a cache miss. -/
def c5db : DB :=
  { posts := fixturePosts.take 3
    interactions := []
    preferences := []
    similarities := []
    trending := []
    feedback := [] }

/-- A concrete cosine oracle: post 2 scores 0.9 against post 1, post 3 scores
0.2, everything else 0. -/
def c5cos : Nat → Nat → ℚ :=
  fun a b => if a = 1 ∧ b = 2 then 9/10 else if a = 1 ∧ b = 3 then 1/5 else 0

/-- A database whose only interaction for post 5 is far outside the 24h
window, plus an existing trending row for post 5. -/
def c10db : DB :=
  { posts := fixturePosts
    interactions := [{ user_id := 1
                       post_id := 5
                       interaction_type := "like"
                       interaction_score := 1
                       time_spent_seconds := 0
                       scroll_depth := 0
                       created_at := 0 }]
    preferences := []
    similarities := []
    trending := [fixtureTrendingRow]
    feedback := [] }

/-- A database with every table empty. -/
def emptyDB : DB :=
  { posts := []
    interactions := []
    preferences := []
    similarities := []
    trending := []
    feedback := [] }

/-- A feedback request whose score 2 lies outside `[-1, 1]`. -/
def c8request : FeedbackRequestIn :=
  { user_id := 1
    post_id := 2
    feedback_type := "like"
    feedback_score := 2
    recommendation_type := "personalized" }

/-! ### Lemmas about the stable descending sort -/

theorem insertDescBy_perm {α β : Type} [LinearOrder β] (key : α → β) (a : α) :
    ∀ l : List α, (insertDescBy key a l).Perm (a :: l)
  | [] => List.Perm.refl _
  | b :: bs => by
      unfold insertDescBy
      split
      · exact ((insertDescBy_perm key a bs).cons b).trans (List.Perm.swap a b bs)
      · exact List.Perm.refl _

theorem sortDescBy_perm {α β : Type} [LinearOrder β] (key : α → β) :
    ∀ l : List α, (sortDescBy key l).Perm l
  | [] => List.Perm.refl _
  | a :: l =>
      (insertDescBy_perm key a (sortDescBy key l)).trans
        ((sortDescBy_perm key l).cons a)

theorem mem_insertDescBy {α β : Type} [LinearOrder β] {key : α → β} {a x : α}
    {l : List α} (hx : x ∈ insertDescBy key a l) : x = a ∨ x ∈ l :=
  List.mem_cons.mp ((List.Perm.mem_iff (insertDescBy_perm key a l)).mp hx)

theorem pairwise_insertDescBy {α β : Type} [LinearOrder β] {key : α → β} (a : α) :
    ∀ {l : List α}, l.Pairwise (fun x y => key y ≤ key x) →
      (insertDescBy key a l).Pairwise (fun x y => key y ≤ key x)
  | [], _ => List.pairwise_singleton _ _
  | b :: bs, h => by
      rw [List.pairwise_cons] at h
      unfold insertDescBy
      split
      · rename_i hab
        rw [List.pairwise_cons]
        refine ⟨fun x hx => ?_, pairwise_insertDescBy a h.2⟩
        rcases mem_insertDescBy hx with rfl | hx
        · exact le_of_lt hab
        · exact h.1 x hx
      · rename_i hab
        rw [List.pairwise_cons]
        exact ⟨fun x hx => by
          rcases List.mem_cons.mp hx with rfl | hx
          · exact le_of_not_lt hab
          · exact (h.1 x hx).trans (le_of_not_lt hab),
          List.pairwise_cons.mpr h⟩

theorem sortDescBy_pairwise {α β : Type} [LinearOrder β] (key : α → β) :
    ∀ l : List α, (sortDescBy key l).Pairwise (fun x y => key y ≤ key x)
  | [] => List.Pairwise.nil
  | a :: l => pairwise_insertDescBy a (sortDescBy_pairwise key l)

theorem sortDescBy_eq_self {α β : Type} [LinearOrder β] {key : α → β} :
    ∀ {l : List α}, l.Pairwise (fun x y => key y ≤ key x) → sortDescBy key l = l
  | [], _ => rfl
  | a :: l, h => by
      rw [List.pairwise_cons] at h
      show insertDescBy key a (sortDescBy key l) = a :: l
      rw [sortDescBy_eq_self h.2]
      cases l with
      | nil => rfl
      | cons b bs =>
          unfold insertDescBy
          rw [if_neg (not_lt.mpr (h.1 b (List.mem_cons_self b bs)))]

/-! ### C7 / C10: Trending Scorer -/

theorem applyTrendingMetrics_idem (now : ℤ) (m : TrendingMetrics)
    (t : TrendingContent) :
    applyTrendingMetrics now m (applyTrendingMetrics now m t) =
      applyTrendingMetrics now m t := rfl

theorem upsertTrending_idem (now : ℤ) (post_id : Nat) (m : TrendingMetrics) :
    ∀ l : List TrendingContent,
      upsertTrending now post_id m (upsertTrending now post_id m l) =
        upsertTrending now post_id m l
  | [] => by
      show upsertTrending now post_id m [newTrendingRecord now post_id m] = _
      simp [upsertTrending, newTrendingRecord, applyTrendingMetrics]
  | t :: ts => by
      by_cases h : t.post_id = post_id
      · simp [upsertTrending, h, applyTrendingMetrics]
      · simp only [upsertTrending, if_neg h]
        rw [upsertTrending_idem now post_id m ts]

/-- Unfolding equation for `update_post_trending_score`. -/
theorem update_post_trending_score_def (now : ℤ) (post_id : Nat) (db : DB) :
    update_post_trending_score now post_id db =
      if (recentInteractions now post_id db).isEmpty then db
      else
        { db with trending := upsertTrending now post_id (trendingMetrics now (recentInteractions now post_id db)) db.trending } :=
  rfl

/-- C7: trending refresh is idempotent. With the interaction log unchanged
(the refresh itself writes only the `trending_content` table) and both calls
evaluated at the same instant `now`, running `_update_post_trending_score`
twice in succession yields exactly the same state — in particular the post's
`TrendingRecord` keeps the same `trend_score`, `velocity` and per-type counts
after the second call. -/
theorem trending_refresh_idempotent (now : ℤ) (post_id : Nat) (db : DB) :
    update_post_trending_score now post_id (update_post_trending_score now post_id db) =
      update_post_trending_score now post_id db := by
  by_cases h : (recentInteractions now post_id db).isEmpty
  · rw [update_post_trending_score_def now post_id db, if_pos h,
      update_post_trending_score_def, if_pos h]
  · have hdb1 : update_post_trending_score now post_id db =
        { db with trending := upsertTrending now post_id (trendingMetrics now (recentInteractions now post_id db)) db.trending } := by
      rw [update_post_trending_score_def, if_neg h]
    rw [hdb1, update_post_trending_score_def]
    have h3 : recentInteractions now post_id { db with trending := upsertTrending now post_id (trendingMetrics now (recentInteractions now post_id db)) db.trending } = recentInteractions now post_id db := rfl
    rw [h3, if_neg h]
    show ({ db with trending := upsertTrending now post_id (trendingMetrics now (recentInteractions now post_id db)) (upsertTrending now post_id (trendingMetrics now (recentInteractions now post_id db)) db.trending) } : DB) = _
    rw [upsertTrending_idem]

/-- C10: when a post has no interaction inside the 24-hour window, the
trending refresh returns without touching any state: the whole `DB` — in
particular any existing `TrendingContent` row — is unchanged, and no row is
created. -/
theorem trending_refresh_no_recent_frame (now : ℤ) (post_id : Nat) (db : DB)
    (h : recentInteractions now post_id db = []) :
    update_post_trending_score now post_id db = db := by
  rw [update_post_trending_score_def, h]
  rfl

/-- Witness for C10: a database holding one stale interaction (outside the
24h window) and one existing trending row is left untouched by a refresh. -/
theorem trending_refresh_no_recent_frame_witness :
    update_post_trending_score 1000000 5 c10db = c10db :=
  trending_refresh_no_recent_frame 1000000 5 c10db (by decide)

/-! ### C3 groundwork: deduplication and the author cap -/

theorem dedupKeepFirst_nodup {α : Type} [DecidableEq α] :
    ∀ l : List α, (dedupKeepFirst l).Nodup
  | [] => List.nodup_nil
  | a :: as => by
      rw [dedupKeepFirst]
      refine List.Nodup.cons ?_ ((dedupKeepFirst_nodup as).filter _)
      intro ha
      have := (List.mem_filter.mp ha).2
      simp at this

theorem eq_of_mem_of_nodup_keys {α β : Type} (f : α → β) :
    ∀ {l : List α}, (l.map f).Nodup → ∀ {x y : α}, x ∈ l → y ∈ l → f x = f y → x = y
  | [], _, x, _, hx, _, _ => absurd hx (List.not_mem_nil x)
  | a :: as, h, x, y, hx, hy, hf => by
      rw [List.map_cons, List.nodup_cons] at h
      rcases List.mem_cons.mp hx with rfl | hx' <;> rcases List.mem_cons.mp hy with rfl | hy'
      · rfl
      · exact absurd (hf ▸ List.mem_map_of_mem f hy') h.1
      · exact absurd (hf ▸ List.mem_map_of_mem f hx') h.1
      · exact eq_of_mem_of_nodup_keys f h.2 hx' hy' hf

/-- The merged list has pairwise distinct `post_id`s: part one of C3. -/
theorem merge_keys_nodup (recs : List RecommendationItem) :
    ((merge_and_deduplicate_recommendations recs).map RecommendationItem.post_id).Nodup := by
  unfold merge_and_deduplicate_recommendations
  have hperm := (sortDescBy_perm RecommendationItem.score
    ((dedupKeepFirst (recs.map (fun r => r.post_id))).map (fun k =>
      ({ post_id := k
         score := ((recs.filter (fun r => r.post_id = k)).map (fun r => r.score)).sum
         algorithm := joinSep "+" (dedupKeepFirst ((recs.filter (fun r => r.post_id = k)).map (fun r => r.algorithm)))
         reason := joinSep "; " (dedupKeepFirst ((recs.filter (fun r => r.post_id = k)).map (fun r => r.reason)))
         confidence := ((recs.filter (fun r => r.post_id = k)).map (fun r => r.confidence)).sum / (((recs.filter (fun r => r.post_id = k)).length : ℚ)) } : RecommendationItem)))).map RecommendationItem.post_id
  refine hperm.nodup_iff.mpr ?_
  rw [List.map_map]
  have : (RecommendationItem.post_id ∘ fun k =>
      ({ post_id := k
         score := ((recs.filter (fun r => r.post_id = k)).map (fun r => r.score)).sum
         algorithm := joinSep "+" (dedupKeepFirst ((recs.filter (fun r => r.post_id = k)).map (fun r => r.algorithm)))
         reason := joinSep "; " (dedupKeepFirst ((recs.filter (fun r => r.post_id = k)).map (fun r => r.reason)))
         confidence := ((recs.filter (fun r => r.post_id = k)).map (fun r => r.confidence)).sum / (((recs.filter (fun r => r.post_id = k)).length : ℚ)) } : RecommendationItem)) = id := rfl
  rw [this, List.map_id]
  exact dedupKeepFirst_nodup _

theorem length_filter_eq_count_filterMap (A : Nat → Option Nat) (a : Nat) :
    ∀ l : List RecommendationItem,
      (l.filter (fun r => A r.post_id = some a)).length =
        (l.filterMap (fun r => A r.post_id)).count a
  | [] => rfl
  | r :: l => by
      have ih := length_filter_eq_count_filterMap A a l
      cases hA : A r.post_id with
      | none =>
          simp only [List.filter_cons, List.filterMap_cons, hA]
          simpa using ih
      | some b =>
          by_cases hb : b = a
          · simp only [List.filter_cons, List.filterMap_cons, hA, hb]
            simp [List.count_cons, ih]
          · simp only [List.filter_cons, List.filterMap_cons, hA]
            simp [List.count_cons, ih, hb, Ne.symm hb]

theorem nodup_of_toFinset_card_eq_length {α : Type} [DecidableEq α]
    {l : List α} (h : l.toFinset.card = l.length) : l.Nodup := by
  have h1 : l.dedup.length = l.length := by
    rw [← List.card_toFinset]
    exact h
  have h2 := (List.dedup_sublist l).eq_of_length h1
  rw [← h2]
  exact List.nodup_dedup l

/-- The greedy pass only appends to its accumulator, and the appended part is
a sublist of the candidate list. -/
theorem diversityGreedy_append (A : Nat → Option Nat) (lim : Nat) :
    ∀ (rs acc : List RecommendationItem),
      ∃ s, diversityGreedy A lim rs acc = acc ++ s ∧ s.Sublist rs
  | [], acc => ⟨[], by simp [diversityGreedy], List.nil_sublist _⟩
  | r :: rs, acc => by
      cases hA : A r.post_id with
      | none =>
          obtain ⟨s, hs, hsub⟩ := diversityGreedy_append A lim rs acc
          refine ⟨s, ?_, hsub.cons r⟩
          simp only [diversityGreedy, hA]
          exact hs
      | some a =>
          by_cases hcnt : (acc.filter (fun x => A x.post_id = some a)).length < 3
          · by_cases hl2 : lim ≤ (acc ++ [r]).length
            · refine ⟨[r], ?_, (List.nil_sublist rs).cons₂ r⟩
              simp only [diversityGreedy, hA]
              rw [if_pos hcnt, if_pos hl2]
            · obtain ⟨s, hs, hsub⟩ := diversityGreedy_append A lim rs (acc ++ [r])
              refine ⟨r :: s, ?_, hsub.cons₂ r⟩
              simp only [diversityGreedy, hA]
              rw [if_pos hcnt, if_neg hl2, hs, List.append_assoc]
              rfl
          · obtain ⟨s, hs, hsub⟩ := diversityGreedy_append A lim rs acc
            refine ⟨s, ?_, hsub.cons r⟩
            simp only [diversityGreedy, hA]
            rw [if_neg hcnt]
            exact hs

/-- The greedy pass never lets any author exceed 3 selected items. -/
theorem diversityGreedy_count_le (A : Nat → Option Nat) (lim : Nat) (a : Nat) :
    ∀ (rs acc : List RecommendationItem),
      (acc.filter (fun s => A s.post_id = some a)).length ≤ 3 →
      ((diversityGreedy A lim rs acc).filter (fun s => A s.post_id = some a)).length ≤ 3
  | [], acc, h => by simpa [diversityGreedy] using h
  | r :: rs, acc, h => by
      cases hA : A r.post_id with
      | none =>
          simp only [diversityGreedy, hA]
          exact diversityGreedy_count_le A lim a rs acc h
      | some a0 =>
          by_cases hcnt : (acc.filter (fun s => A s.post_id = some a0)).length < 3
          · have hacc' : ((acc ++ [r]).filter (fun s => A s.post_id = some a)).length ≤ 3 := by
              rw [List.filter_append, List.length_append]
              by_cases ha : a0 = a
              · subst ha
                have h1 : (List.filter (fun s => decide (A s.post_id = some a0)) [r]).length ≤ 1 := by
                  simp [hA]
                omega
              · have h1 : List.filter (fun s => decide (A s.post_id = some a)) [r] = [] := by
                  simp [hA, ha]
                rw [h1]
                simpa using h
            by_cases hl2 : lim ≤ (acc ++ [r]).length
            · simp only [diversityGreedy, hA]
              rw [if_pos hcnt, if_pos hl2]
              exact hacc'
            · simp only [diversityGreedy, hA]
              rw [if_pos hcnt, if_neg hl2]
              exact diversityGreedy_count_le A lim a rs (acc ++ [r]) hacc'
          · simp only [diversityGreedy, hA]
            rw [if_neg hcnt]
            exact diversityGreedy_count_le A lim a rs acc h

/-- When the greedy pass ends below the limit, every author occurring among
the candidates (or already in the accumulator) occurs among the selected
items: a candidate is only ever skipped because its author already has three
selected items. -/
theorem diversityGreedy_authors_cover (A : Nat → Option Nat) (lim : Nat) :
    ∀ (rs acc : List RecommendationItem),
      (diversityGreedy A lim rs acc).length < lim →
      ∀ a, (a ∈ rs.filterMap (fun r => A r.post_id) ∨
            a ∈ acc.filterMap (fun r => A r.post_id)) →
        a ∈ (diversityGreedy A lim rs acc).filterMap (fun r => A r.post_id)
  | [], acc, _, a, ha => by
      simp only [diversityGreedy]
      rcases ha with ha | ha
      · simp at ha
      · exact ha
  | r :: rs, acc, hlen, a, ha => by
      cases hA : A r.post_id with
      | none =>
          have hres : diversityGreedy A lim (r :: rs) acc = diversityGreedy A lim rs acc := by
            simp only [diversityGreedy, hA]
          rw [hres] at hlen ⊢
          refine diversityGreedy_authors_cover A lim rs acc hlen a ?_
          rcases ha with ha | ha
          · left
            rwa [List.filterMap_cons, hA] at ha
          · right; exact ha
      | some a0 =>
          by_cases hcnt : (acc.filter (fun s => A s.post_id = some a0)).length < 3
          · by_cases hl2 : lim ≤ (acc ++ [r]).length
            · have hres : diversityGreedy A lim (r :: rs) acc = acc ++ [r] := by
                simp only [diversityGreedy, hA]
                rw [if_pos hcnt, if_pos hl2]
              rw [hres] at hlen
              omega
            · have hres : diversityGreedy A lim (r :: rs) acc =
                  diversityGreedy A lim rs (acc ++ [r]) := by
                simp only [diversityGreedy, hA]
                rw [if_pos hcnt, if_neg hl2]
              rw [hres] at hlen ⊢
              refine diversityGreedy_authors_cover A lim rs (acc ++ [r]) hlen a ?_
              rcases ha with ha | ha
              · rw [List.filterMap_cons, hA] at ha
                rcases List.mem_cons.mp ha with rfl | ha
                · right
                  rw [List.filterMap_append]
                  refine List.mem_append.mpr (Or.inr ?_)
                  simp [hA]
                · left; exact ha
              · right
                rw [List.filterMap_append]
                exact List.mem_append.mpr (Or.inl ha)
          · have hres : diversityGreedy A lim (r :: rs) acc = diversityGreedy A lim rs acc := by
              simp only [diversityGreedy, hA]
              rw [if_neg hcnt]
            rw [hres] at hlen ⊢
            refine diversityGreedy_authors_cover A lim rs acc hlen a ?_
            rcases ha with ha | ha
            · rw [List.filterMap_cons, hA] at ha
              rcases List.mem_cons.mp ha with rfl | ha
              · right
                have h3 : 0 < (acc.filter (fun s => A s.post_id = some a)).length := by omega
                obtain ⟨x, hx⟩ := List.exists_mem_of_length_pos h3
                have hx' := List.mem_filter.mp hx
                exact List.mem_filterMap.mpr ⟨x, hx'.1, of_decide_eq_true hx'.2⟩
              · left; exact ha
            · right; exact ha

/-- Behaviour of the diversity pass (followed by the pipeline's final
truncation) on any candidate list with pairwise distinct `post_id`s: the
output keeps the `post_id`s pairwise distinct, and whenever at least `lim`
distinct authors occur among the candidates, no author contributes more than
3 items. -/
theorem apply_diversity_spec (A : Nat → Option Nat) (M : List RecommendationItem)
    (lim : Nat) (hM : (M.map RecommendationItem.post_id).Nodup) :
    (((apply_diversity A M lim).take lim).map RecommendationItem.post_id).Nodup ∧
    ∀ a : Nat, lim ≤ (M.filterMap (fun r => A r.post_id)).toFinset.card →
      (((apply_diversity A M lim).take lim).filter
        (fun r => A r.post_id = some a)).length ≤ 3 := by
  have hsorted_perm := sortDescBy_perm RecommendationItem.score M
  have hsorted_nodup :
      ((sortDescBy RecommendationItem.score M).map RecommendationItem.post_id).Nodup :=
    (hsorted_perm.map RecommendationItem.post_id).nodup_iff.mpr hM
  by_cases hlen : M.length ≤ lim
  · unfold apply_diversity
    rw [if_pos hlen]
    constructor
    · exact List.Nodup.sublist ((List.take_sublist lim M).map RecommendationItem.post_id) hM
    · intro a hcard
      have h2 : (M.filterMap (fun r => A r.post_id)).length ≤ M.length :=
        List.length_filterMap_le _ _
      have h1 : (M.filterMap (fun r => A r.post_id)).toFinset.card ≤
          (M.filterMap (fun r => A r.post_id)).length := List.toFinset_card_le _
      have h4 : (M.filterMap (fun r => A r.post_id)).toFinset.card =
          (M.filterMap (fun r => A r.post_id)).length := by omega
      have h6 := List.nodup_iff_count_le_one.mp (nodup_of_toFinset_card_eq_length h4) a
      calc ((M.take lim).filter (fun r => A r.post_id = some a)).length
          ≤ (M.filter (fun r => A r.post_id = some a)).length :=
            ((List.take_sublist lim M).filter _).length_le
        _ = (M.filterMap (fun r => A r.post_id)).count a :=
            length_filter_eq_count_filterMap A a M
        _ ≤ 1 := h6
        _ ≤ 3 := by omega
  · unfold apply_diversity
    rw [if_neg hlen]
    obtain ⟨s, hs_eq, hs_sub⟩ :=
      diversityGreedy_append A lim (sortDescBy RecommendationItem.score M) []
    have hsel_sub : (diversitySelected A lim M).Sublist
        (sortDescBy RecommendationItem.score M) := by
      rw [diversitySelected, hs_eq, List.nil_append]
      exact hs_sub
    constructor
    · by_cases hfill : (diversitySelected A lim M).length < lim
      · rw [if_pos hfill]
        refine List.Nodup.sublist ((List.take_sublist _ _).map _) ?_
        refine List.Nodup.sublist ((List.take_sublist _ _).map _) ?_
        rw [List.map_append, List.nodup_append]
        refine ⟨List.Nodup.sublist (hsel_sub.map _) hsorted_nodup,
          List.Nodup.sublist (((List.take_sublist _ _).trans (List.filter_sublist _)).map _)
            hsorted_nodup, ?_⟩
        intro x hx1 hx2
        obtain ⟨u, hu, hux⟩ := List.mem_map.mp hx1
        obtain ⟨v, hv, hvx⟩ := List.mem_map.mp hx2
        have hv1 : v ∈ (sortDescBy RecommendationItem.score M).filter
            (fun r => r ∉ diversitySelected A lim M) := List.mem_of_mem_take hv
        have hv_sorted := List.mem_of_mem_filter hv1
        have hv_not_sel : v ∉ diversitySelected A lim M := by
          have := (List.mem_filter.mp hv1).2
          simpa using this
        have hu_sorted : u ∈ sortDescBy RecommendationItem.score M := hsel_sub.subset hu
        have huv : u = v := eq_of_mem_of_nodup_keys RecommendationItem.post_id
          hsorted_nodup hu_sorted hv_sorted (by rw [hux, hvx])
        exact hv_not_sel (huv ▸ hu)
      · rw [if_neg hfill]
        refine List.Nodup.sublist ?_ hsorted_nodup
        exact (((List.take_sublist _ _).trans (List.take_sublist _ _)).trans hsel_sub).map _
    · intro a hcard
      have hnb : ¬ (diversitySelected A lim M).length < lim := by
        intro hlt
        rw [diversitySelected] at hlt
        have hsubset : (M.filterMap (fun r => A r.post_id)).toFinset ⊆
            ((diversityGreedy A lim (sortDescBy RecommendationItem.score M) []).filterMap
              (fun r => A r.post_id)).toFinset := by
          intro x hx
          rw [List.mem_toFinset] at hx ⊢
          have hx1 : x ∈ (sortDescBy RecommendationItem.score M).filterMap
              (fun r => A r.post_id) := (hsorted_perm.filterMap _).mem_iff.mpr hx
          exact diversityGreedy_authors_cover A lim
            (sortDescBy RecommendationItem.score M) [] hlt x (Or.inl hx1)
        have h1 : lim ≤ ((diversityGreedy A lim (sortDescBy RecommendationItem.score M)
            []).filterMap (fun r => A r.post_id)).toFinset.card :=
          le_trans hcard (Finset.card_le_card hsubset)
        have h2 : ((diversityGreedy A lim (sortDescBy RecommendationItem.score M)
            []).filterMap (fun r => A r.post_id)).toFinset.card ≤
            (diversityGreedy A lim (sortDescBy RecommendationItem.score M) []).length :=
          le_trans (List.toFinset_card_le _) (List.length_filterMap_le _ _)
        omega
      rw [if_neg hnb]
      have hcnt := diversityGreedy_count_le A lim a
        (sortDescBy RecommendationItem.score M) [] (by simp)
      have hcnt2 : ((diversitySelected A lim M).filter
          (fun r => A r.post_id = some a)).length ≤ 3 := by
        rw [diversitySelected]
        exact hcnt
      have hfinal : ((((diversitySelected A lim M).take lim).take lim).filter
          (fun r => A r.post_id = some a)).length ≤
          ((diversitySelected A lim M).filter (fun r => A r.post_id = some a)).length :=
        (((List.take_sublist _ _).trans (List.take_sublist _ _)).filter _).length_le
      exact le_trans hfinal hcnt2

/-- C3: in every list returned by the recommendation call, no `post_id`
appears more than once; and whenever at least `limit` distinct authors occur
among the merged candidates entering the diversity pass, no single author
contributes more than 3 items. -/
theorem merged_dedup_and_author_cap (sqrtQ : Nat → ℚ) (cos : Nat → Nat → ℚ)
    (now : ℤ) (user_id lim : Nat) (include_types : List String) (db : DB) :
    ((get_personalized_recommendations sqrtQ cos now user_id lim include_types db).map
        RecommendationItem.post_id).Nodup ∧
    ∀ a : Nat,
      lim ≤ ((mergedCandidates sqrtQ cos now user_id lim include_types db).filterMap
        (fun r => authorOfPost db r.post_id)).toFinset.card →
      ((get_personalized_recommendations sqrtQ cos now user_id lim include_types db).filter
        (fun r => authorOfPost db r.post_id = some a)).length ≤ 3 :=
  apply_diversity_spec (authorOfPost db)
    (mergedCandidates sqrtQ cos now user_id lim include_types db) lim
    (merge_keys_nodup (recommendationCandidates sqrtQ cos now user_id lim include_types db))

/-- Witness for C3: with catalog `c1db`, user 1 and limit 2, the merged
candidates carry 2 ≥ limit distinct authors, and author 11 contributes at
most 3 items in the returned list. -/
theorem merged_dedup_and_author_cap_witness :
    ((get_personalized_recommendations (fun _ => 0) (fun _ _ => 0) 1000000 1 2
        defaultIncludeTypes c1db).filter
      (fun r => authorOfPost c1db r.post_id = some 11)).length ≤ 3 :=
  (merged_dedup_and_author_cap (fun _ => 0) (fun _ _ => 0) 1000000 1 2
    defaultIncludeTypes c1db).2 11 (of_decide_eq_true (by with_unfolding_all rfl))

/-! ### C1: cold start is not an early exit -/

/-- C1 (divergence at the failing input): user 1 has zero logged interactions
and the catalog holds five recent posts, yet `recommend(user 1, limit 5)` with
the default strategy set returns only THREE items — the cold-start list is
produced inside the collaborative stage with `limit // 2 = 2` instead of
`limit`, and the trending stage still runs, so a trending-tagged item appears
alongside the two cold-start items. The claim (and the repo's own test, which
asserts `_get_cold_start_recommendations` is called with the full limit 5)
requires five items, all tagged `cold_start`. -/
theorem cold_start_not_exclusive_failing_input :
    c1db.interactions.filter (fun i => i.user_id = 1) = [] ∧
    c1db.posts.length = 5 ∧
    (get_personalized_recommendations (fun _ => 0) (fun _ _ => 0) 1000000 1 5 defaultIncludeTypes c1db).length = 3 ∧
    ((get_personalized_recommendations (fun _ => 0) (fun _ _ => 0) 1000000 1 5 defaultIncludeTypes c1db).filter
        (fun r => r.algorithm = "cold_start")).length = 2 ∧
    ((get_personalized_recommendations (fun _ => 0) (fun _ _ => 0) 1000000 1 5 defaultIncludeTypes c1db).filter
        (fun r => r.algorithm = "trending")).length = 1 :=
  of_decide_eq_true (by with_unfolding_all rfl)

/-! ### C5 / C6: Similarity Index -/

theorem find_similar_content_mem_snd (cos : Nat → Nat → ℚ) (pid lim : Nat)
    (db : DB) : ∀ x ∈ find_similar_content cos pid lim db, 1/10 < x.2 := by
  intro x hx
  simp only [find_similar_content] at hx
  split at hx
  · simp at hx
  · split at hx
    · simp at hx
    · have := (List.mem_filter.mp hx).2
      simpa using this

theorem find_similar_content_sorted (cos : Nat → Nat → ℚ) (pid lim : Nat)
    (db : DB) :
    (find_similar_content cos pid lim db).Pairwise (fun a b => b.2 ≤ a.2) := by
  simp only [find_similar_content]
  split
  · exact List.Pairwise.nil
  · split
    · exact List.Pairwise.nil
    · exact ((sortDescBy_pairwise Prod.snd _).sublist
        ((List.filter_sublist _).trans (List.take_sublist _ _))).imp (fun h => h)

theorem find_similar_content_length_le (cos : Nat → Nat → ℚ) (pid lim : Nat)
    (db : DB) : (find_similar_content cos pid lim db).length ≤ lim := by
  simp only [find_similar_content]
  split
  · simp
  · split
    · simp
    · exact le_trans ((List.filter_sublist _).length_le) (List.length_take_le _ _)

theorem find_similar_content_zero (cos : Nat → Nat → ℚ) (pid : Nat) (db : DB) :
    find_similar_content cos pid 0 db = [] :=
  List.length_eq_zero.mp
    (Nat.le_zero.mp (find_similar_content_length_le cos pid 0 db))

/-- On a cache miss with a successful commit, the state written back is the old
state plus one persisted row per computed similarity, and the returned items
are the computed pairs tagged `ai_embeddings` / confidence 0.8. -/
theorem get_similar_content_miss (cos : Nat → Nat → ℚ) (pid lim : Nat) (db : DB)
    (hmiss : cachedSimilarities pid lim db = []) :
    get_similar_content cos true pid lim db =
      ((find_similar_content cos pid lim db).map (fun s =>
        { post_id := s.1
          similarity_score := s.2
          algorithm := "ai_embeddings"
          confidence := 8/10 }),
       { db with similarities := db.similarities ++ (find_similar_content cos pid lim db).map (newSimilarityRow pid) }) := by
  unfold get_similar_content
  rw [hmiss]
  simp

/-- C5: after a cache miss whose computed similarities were persisted, a
second `get_similar` query with the same post and limit — with no intervening
invalidation or new interactions — is answered purely from the persisted rows:
it returns exactly the first call's (content_id, score) pairs and leaves the
state untouched, for ANY embedding oracle (even a disagreeing one) and even
with a failing commit, i.e. without recomputation. -/
theorem similarity_cache_round_trip (cos : Nat → Nat → ℚ) (pid lim : Nat)
    (db : DB) (hmiss : cachedSimilarities pid lim db = [])
    (hne : find_similar_content cos pid lim db ≠ [])
    (cos2 : Nat → Nat → ℚ) (commitOk2 : Bool) :
    get_similar_content cos2 commitOk2 pid lim
        (get_similar_content cos true pid lim db).2 =
      get_similar_content cos true pid lim db := by
  have hlim : lim ≠ 0 := by
    intro h
    exact hne (h ▸ find_similar_content_zero cos pid db)
  have hfilterdb : db.similarities.filter
      (fun s => s.source_post_id = pid ∧ s.similarity_score > 1/10 ∧ s.is_active) = [] := by
    have h1 : (sortDescBy SimilarityScore.similarity_score
        (db.similarities.filter
          (fun s => s.source_post_id = pid ∧ s.similarity_score > 1/10 ∧ s.is_active))).take lim = [] := hmiss
    rcases List.take_eq_nil_iff.mp h1 with h | h
    · exact absurd h hlim
    · have := (sortDescBy_perm SimilarityScore.similarity_score
        (db.similarities.filter
          (fun s => s.source_post_id = pid ∧ s.similarity_score > 1/10 ∧ s.is_active))).length_eq
      rw [h] at this
      exact List.length_eq_zero.mp this.symm
  have hfilternew : (((find_similar_content cos pid lim db).map (newSimilarityRow pid)).filter
      (fun s => s.source_post_id = pid ∧ s.similarity_score > 1/10 ∧ s.is_active)) =
      (find_similar_content cos pid lim db).map (newSimilarityRow pid) := by
    rw [List.filter_eq_self]
    intro s hs
    rcases List.mem_map.mp hs with ⟨x, hx, rfl⟩
    have h10 : (10 : ℚ)⁻¹ < x.2 := by
      rw [← one_div]
      exact find_similar_content_mem_snd cos pid lim db x hx
    simp [newSimilarityRow, h10]
  have hsortednew : ((find_similar_content cos pid lim db).map (newSimilarityRow pid)).Pairwise
      (fun a b => SimilarityScore.similarity_score b ≤ SimilarityScore.similarity_score a) := by
    rw [List.pairwise_map]
    exact (find_similar_content_sorted cos pid lim db).imp (fun h => h)
  have hcached1 : cachedSimilarities pid lim
      { db with similarities := db.similarities ++ (find_similar_content cos pid lim db).map (newSimilarityRow pid) } =
      (find_similar_content cos pid lim db).map (newSimilarityRow pid) := by
    unfold cachedSimilarities
    show (sortDescBy _ (List.filter _ (db.similarities ++ _))).take lim = _
    rw [List.filter_append, hfilterdb, List.nil_append, hfilternew,
      sortDescBy_eq_self hsortednew]
    exact List.take_of_length_le (by
      rw [List.length_map]
      exact find_similar_content_length_le cos pid lim db)
  rw [get_similar_content_miss cos pid lim db hmiss]
  unfold get_similar_content
  rw [hcached1]
  have hnonempty : ¬ ((find_similar_content cos pid lim db).map (newSimilarityRow pid)).isEmpty = true := by
    rw [List.isEmpty_iff, List.map_eq_nil_iff]
    exact hne
  rw [if_pos hnonempty, List.map_map]
  rfl

/-- Witness for C5: with the concrete catalog `c5db` and oracle `c5cos`, the
first call is a cache miss that persists two rows; the second call — evaluated
with a zero oracle and a failing commit — still returns the same pairs and the
same state. -/
theorem similarity_cache_round_trip_witness :
    get_similar_content (fun _ _ => 0) false 1 5
        (get_similar_content c5cos true 1 5 c5db).2 =
      get_similar_content c5cos true 1 5 c5db :=
  similarity_cache_round_trip c5cos 1 5 c5db
    (of_decide_eq_true (by with_unfolding_all rfl))
    (of_decide_eq_true (by with_unfolding_all rfl))
    (fun _ _ => 0) false

/-- Counterexample to C6 as stated: with the concrete catalog `c5db` and
oracle `c5cos`, a cache miss computes two nonempty similarity results, yet
when the persistence commit fails the caller receives the empty list, not the
computed results — the exception handler swallows the error and returns `[]`
(`recommendation_service.py` lines 656-658). -/
theorem similarity_commit_failure_counterexample :
    (get_similar_content c5cos false 1 5 c5db).1 = [] ∧
    find_similar_content c5cos 1 5 c5db ≠ [] :=
  ⟨of_decide_eq_true (by with_unfolding_all rfl),
   of_decide_eq_true (by with_unfolding_all rfl)⟩

/-- C6 amended: when the persistence of freshly computed similarities fails,
the error is caught (the call returns normally rather than raising, and the
error is logged) and the state is left unchanged, but the caller receives the
EMPTY list — not the computed similarity results. -/
theorem similarity_commit_failure_returns_empty (cos : Nat → Nat → ℚ)
    (pid lim : Nat) (db : DB)
    (hmiss : cachedSimilarities pid lim db = []) :
    get_similar_content cos false pid lim db = ([], db) := by
  unfold get_similar_content
  rw [hmiss]
  simp

/-- Witness for C6's amended claim at the concrete failing input. -/
theorem similarity_commit_failure_returns_empty_witness :
    get_similar_content c5cos false 1 5 c5db = ([], c5db) :=
  similarity_commit_failure_returns_empty c5cos 1 5 c5db
    (of_decide_eq_true (by with_unfolding_all rfl))

/-! ### C8: feedback validation -/

/-- C8: a feedback submission whose `feedback_score` lies outside `[-1, 1]`
fails the pydantic `Field(ge=-1.0, le=1.0)` validation, so the endpoint
rejects it before the service runs: no `RecommendationFeedback` row is
written and the persisted state is untouched (the handler is never invoked,
hence no state transition occurs at all). -/
theorem feedback_out_of_range_rejected (r : FeedbackRequestIn) (db : DB)
    (h : r.feedback_score < -1 ∨ 1 < r.feedback_score) :
    submit_feedback_endpoint r db = none := by
  have hv : feedbackScoreValid r = false := by
    simp only [feedbackScoreValid, decide_eq_false_iff_not]
    rcases h with h | h
    · exact fun hc => absurd hc.1 (not_le.mpr h)
    · exact fun hc => absurd hc.2 (not_le.mpr h)
  simp [submit_feedback_endpoint, hv]

/-- Witness for C8: the concrete request with score 2 is rejected. -/
theorem feedback_out_of_range_rejected_witness :
    submit_feedback_endpoint c8request emptyDB = none :=
  feedback_out_of_range_rejected c8request emptyDB (by decide)

/-! ### C2 / C9: preference update formulas -/

/-- Counterexample to C2 as stated: for the synchronous per-interaction update
(`_update_single_preference`), a negative interaction ("report", score 1) on
an existing row with strength 0.5 yields strength 0.6 — the code adds
`score * 0.1` unconditionally — whereas the claim's formula
`clamp(strength - score * 0.1, 0, 1)` demands 0.4. -/
theorem preference_negative_update_counterexample :
    (update_single_preference_existing c2pref "report" 1 0).strength = 3/5 ∧
    (update_single_preference_existing c2pref "report" 1 0).strength ≠
      max (c2pref.strength - 1 * (1/10)) 0 :=
  ⟨of_decide_eq_true (by with_unfolding_all rfl),
   of_decide_eq_true (by with_unfolding_all rfl)⟩

/-- C2 amended: in the synchronous per-interaction update, an existing row's
strength becomes `min(strength + score*0.1, 1)` for positive and negative
interactions alike, its confidence becomes `min(count/10, 1)` for the
incremented count, and a new row gets `strength = score*0.5` regardless of the
interaction's sign, `confidence = 0.1`, `interaction_count = 1`. Only the
background bulk update follows the claimed signed formulas — and there an
existing row's confidence is left unchanged. The positive set
{like, share, save, comment} and negative set {dislike, report} drive only
the interaction counters on the synchronous path. -/
theorem preference_update_formulas (p : UserPreference) (t : String) (s : ℚ)
    (pos : Bool) (now : ℤ) (uid : Nat) (pt pv : String) :
    (update_single_preference_existing p t s now).strength = min (p.strength + s * (1/10)) 1 ∧
    (update_single_preference_existing p t s now).confidence = min (((p.interaction_count + 1 : Nat) : ℚ) / 10) 1 ∧
    (update_single_preference_existing p t s now).interaction_count = p.interaction_count + 1 ∧
    (update_single_preference_existing p t s now).positive_interactions =
      (if t ∈ positiveSet then p.positive_interactions + 1 else p.positive_interactions) ∧
    (update_single_preference_existing p t s now).negative_interactions =
      (if t ∈ negativeSet then p.negative_interactions + 1 else p.negative_interactions) ∧
    (update_single_preference_new uid pt pv t s now).strength = s * (1/2) ∧
    (update_single_preference_new uid pt pv t s now).confidence = 1/10 ∧
    (update_single_preference_new uid pt pv t s now).interaction_count = 1 ∧
    (update_preference_for_interaction_existing p s pos now).strength =
      (if pos then min (p.strength + s * (1/10)) 1 else max (p.strength - s * (1/10)) 0) ∧
    (update_preference_for_interaction_existing p s pos now).confidence = p.confidence ∧
    (update_preference_for_interaction_new uid pt pv s pos now).strength =
      (if pos then s * (1/2) else 1/10) ∧
    (update_preference_for_interaction_new uid pt pv s pos now).confidence = 1/10 := by
  refine ⟨rfl, rfl, rfl, rfl, ?_, rfl, rfl, rfl, rfl, rfl, rfl, rfl⟩
  by_cases h1 : t ∈ positiveSet
  · have h2 : t ∉ negativeSet := by
      intro h2
      simp only [positiveSet, List.mem_cons, List.not_mem_nil, or_false] at h1
      simp only [negativeSet, List.mem_cons, List.not_mem_nil, or_false] at h2
      rcases h1 with rfl | rfl | rfl | rfl <;>
        rcases h2 with h2 | h2 <;> exact absurd h2 (by decide)
    simp [update_single_preference_existing, h1, h2]
  · by_cases h2 : t ∈ negativeSet
    · simp [update_single_preference_existing, h1, h2]
    · simp [update_single_preference_existing, h1, h2]

/-- C9: at the public interface only the eight `InteractionType` members are
accepted; among their string values `_update_single_preference` increments
`negative_interactions` exactly for "report" (the "dislike" member of the
negative set is unreachable — no accepted type has that value), and "dismiss"
is in neither set, leaving both interaction counters untouched. -/
theorem negative_counter_only_for_report (t : InteractionType)
    (p : UserPreference) (s : ℚ) (now : ℤ) :
    ((update_single_preference_existing p t.value s now).negative_interactions =
        p.negative_interactions + 1 ↔ t = InteractionType.report) ∧
    t.value ≠ "dislike" ∧
    (t = InteractionType.dismiss →
      (update_single_preference_existing p t.value s now).positive_interactions =
          p.positive_interactions ∧
      (update_single_preference_existing p t.value s now).negative_interactions =
          p.negative_interactions) := by
  cases t <;>
    simp [update_single_preference_existing, InteractionType.value,
      positiveSet, negativeSet]

/-- Witness for C9: a concrete "dismiss" interaction leaves both counters of
an existing row unchanged. -/
theorem negative_counter_only_for_report_witness :
    (update_single_preference_existing c2pref InteractionType.dismiss.value 1 0).positive_interactions =
        c2pref.positive_interactions ∧
    (update_single_preference_existing c2pref InteractionType.dismiss.value 1 0).negative_interactions =
        c2pref.negative_interactions :=
  (negative_counter_only_for_report InteractionType.dismiss c2pref 1 0).2.2 rfl

/-! ### C4: strength and confidence stay in [0, 1] -/

theorem applyPrefUpdate_preserves_range (uid : Nat) (ptype pvalue : String)
    (st : Option UserPreference) (u : PrefUpdate)
    (hst : ∀ q, st = some q →
      0 ≤ q.strength ∧ q.strength ≤ 1 ∧ 0 ≤ q.confidence ∧ q.confidence ≤ 1)
    (hu : 0 ≤ u.score ∧ u.score ≤ 1) :
    ∀ q, applyPrefUpdate uid ptype pvalue st u = some q →
      0 ≤ q.strength ∧ q.strength ≤ 1 ∧ 0 ≤ q.confidence ∧ q.confidence ≤ 1 := by
  intro q hq
  cases st with
  | some p =>
      obtain ⟨hp0, hp1, hc0, hc1⟩ := hst p rfl
      cases u with
      | sync t s now =>
          obtain ⟨hs0, hs1⟩ := hu
          simp only [PrefUpdate.score] at hs0 hs1
          simp only [applyPrefUpdate, Option.some.injEq] at hq
          subst hq
          refine ⟨?_, ?_, ?_, ?_⟩
          · show 0 ≤ min (p.strength + s * (1/10)) 1
            exact le_min (by nlinarith) zero_le_one
          · show min (p.strength + s * (1/10)) 1 ≤ 1
            exact min_le_right _ _
          · show 0 ≤ min (((p.interaction_count + 1 : Nat) : ℚ) / 10) 1
            exact le_min (by positivity) zero_le_one
          · show min (((p.interaction_count + 1 : Nat) : ℚ) / 10) 1 ≤ 1
            exact min_le_right _ _
      | background pos s now =>
          obtain ⟨hs0, hs1⟩ := hu
          simp only [PrefUpdate.score] at hs0 hs1
          simp only [applyPrefUpdate, Option.some.injEq] at hq
          subst hq
          cases pos with
          | true =>
              refine ⟨?_, ?_, hc0, hc1⟩
              · show 0 ≤ min (p.strength + s * (1/10)) 1
                exact le_min (by nlinarith) zero_le_one
              · show min (p.strength + s * (1/10)) 1 ≤ 1
                exact min_le_right _ _
          | false =>
              refine ⟨?_, ?_, hc0, hc1⟩
              · show 0 ≤ max (p.strength - s * (1/10)) 0
                exact le_max_right _ _
              · show max (p.strength - s * (1/10)) 0 ≤ 1
                exact max_le (by nlinarith) zero_le_one
  | none =>
      cases u with
      | sync t s now =>
          obtain ⟨hs0, hs1⟩ := hu
          simp only [PrefUpdate.score] at hs0 hs1
          simp only [applyPrefUpdate, Option.some.injEq] at hq
          subst hq
          refine ⟨?_, ?_, ?_, ?_⟩
          · show 0 ≤ s * (1/2)
            nlinarith
          · show s * (1/2) ≤ 1
            nlinarith
          · show (0 : ℚ) ≤ 1/10
            norm_num
          · show (1 : ℚ)/10 ≤ 1
            norm_num
      | background pos s now =>
          obtain ⟨hs0, hs1⟩ := hu
          simp only [PrefUpdate.score] at hs0 hs1
          simp only [applyPrefUpdate, Option.some.injEq] at hq
          subst hq
          cases pos with
          | true =>
              refine ⟨?_, ?_, ?_, ?_⟩
              · show 0 ≤ s * (1/2)
                nlinarith
              · show s * (1/2) ≤ 1
                nlinarith
              · show (0 : ℚ) ≤ 1/10
                norm_num
              · show (1 : ℚ)/10 ≤ 1
                norm_num
          | false =>
              refine ⟨?_, ?_, ?_, ?_⟩
              · show (0 : ℚ) ≤ 1/10
                norm_num
              · show (1 : ℚ)/10 ≤ 1
                norm_num
              · show (0 : ℚ) ≤ 1/10
                norm_num
              · show (1 : ℚ)/10 ≤ 1
                norm_num

theorem runPrefUpdates_preserves_range (uid : Nat) (ptype pvalue : String) :
    ∀ (us : List PrefUpdate) (st : Option UserPreference),
      (∀ u ∈ us, 0 ≤ u.score ∧ u.score ≤ 1) →
      (∀ q, st = some q →
        0 ≤ q.strength ∧ q.strength ≤ 1 ∧ 0 ≤ q.confidence ∧ q.confidence ≤ 1) →
      ∀ q, runPrefUpdates uid ptype pvalue st us = some q →
        0 ≤ q.strength ∧ q.strength ≤ 1 ∧ 0 ≤ q.confidence ∧ q.confidence ≤ 1
  | [], st, _, hst, q, hq => hst q hq
  | u :: us, st, hus, hst, q, hq =>
      runPrefUpdates_preserves_range uid ptype pvalue us
        (applyPrefUpdate uid ptype pvalue st u)
        (fun v hv => hus v (List.mem_cons_of_mem u hv))
        (applyPrefUpdate_preserves_range uid ptype pvalue st u hst
          (hus u (List.mem_cons_self u us)))
        q hq

/-- C4: starting from a key with no active row, any sequence of preference
updates — synchronous per-interaction updates and background bulk updates, in
any interleaving — with interaction scores in `[0, 1]` leaves the resulting
row's strength and confidence inside `[0, 1]`. -/
theorem preference_range_invariant (uid : Nat) (ptype pvalue : String)
    (us : List PrefUpdate) (hs : ∀ u ∈ us, 0 ≤ u.score ∧ u.score ≤ 1)
    (q : UserPreference) (hq : runPrefUpdates uid ptype pvalue none us = some q) :
    0 ≤ q.strength ∧ q.strength ≤ 1 ∧ 0 ≤ q.confidence ∧ q.confidence ≤ 1 :=
  runPrefUpdates_preserves_range uid ptype pvalue us none hs
    (fun _ h => by cases h) q hq

/-- Witness for C4: the concrete sequence `c4updates` (a synchronous like,
then a negative background update) produces the row `c4result`, whose strength
and confidence lie in `[0, 1]`. -/
theorem preference_range_invariant_witness :
    0 ≤ c4result.strength ∧ c4result.strength ≤ 1 ∧
      0 ≤ c4result.confidence ∧ c4result.confidence ≤ 1 :=
  preference_range_invariant 1 "category" "tech" c4updates
    (of_decide_eq_true (by with_unfolding_all rfl))
    c4result (of_decide_eq_true (by with_unfolding_all rfl))

end Kiki
